import Mathlib

/-!
Verification development for the google-cloud-sdk command surface in this
repository: the firewall-policy-rule `Update` command
(`lib/surface/compute/firewall_policies/rules/update.py`), the container
cluster `Create` command (`lib/surface/container/clusters/create.py`) and the
org-policy `SimulateAlpha` command
(`lib/surface/policy_intelligence/simulate/orgpolicy.py`).

The Python sources are shallowly embedded: command argument namespaces become
records whose fields are `Option`-valued (`none` models an unspecified flag,
matching `args.IsSpecified(...) == False`), protorpc message constructor calls
become record literals whose omitted keyword arguments are `none`, and calls
into modules that are not part of the source tree (rule_utils, the firewall
policy client, the container api_adapter, calliope argument parsing) are
either passed in as function parameters or, where a claim concerns their
behaviour, modelled explicitly from the specification (such definitions say so
in their doc comment).
-/

namespace FirewallRules

/-- The gcloud release track of a command class (`base.ReleaseTrack`). -/
inductive ReleaseTrack where
  | ga
  | beta
  | alpha
deriving DecidableEq, Repr

/-- Direction enum of a firewall policy rule
(`FirewallPolicyRule.DirectionValueValuesEnum`). -/
inductive Direction where
  | ingress
  | egress
deriving DecidableEq, Repr

/-- The parsed argument namespace of the firewall-policy-rule `Update` command
(`Update.Args` in `rules/update.py` registers these flags).  A field holds
`none` exactly when the flag was not specified (`args.IsSpecified` false), in
which case its parsed value is Python `None` anyway for these flags; `some v`
means the flag was given value `v`. -/
structure UpdateArgs where
  action : Option String
  firewall_policy : String
  organization : Option String
  src_ip_ranges : Option (List String)
  dest_ip_ranges : Option (List String)
  layer4_configs : Option (List String)
  direction : Option String
  enable_logging : Option Bool
  disabled : Option Bool
  target_resources : Option (List String)
  target_service_accounts : Option (List String)
  src_fqdns : Option (List String)
  dest_fqdns : Option (List String)
  security_profile_group : Option String
  src_threat_intelligence : Option (List String)
  dest_threat_intelligence : Option (List String)
  src_region_codes : Option (List String)
  dest_region_codes : Option (List String)
  description : Option String
  new_priority : Option String

/-- The `FirewallPolicyRuleMatcher` message as constructed by `Update.Run`
(lines 149-174 of `rules/update.py`).  Each field is `some v` when the
corresponding keyword argument was passed to the message constructor and
`none` when it was omitted; `L4` abstracts the generated `Layer4Config`
message type produced by `rule_utils.ParseLayer4Configs`. -/
structure FirewallPolicyRuleMatcher (L4 : Type) where
  srcIpRanges : Option (List String)
  destIpRanges : Option (List String)
  layer4Configs : Option (List L4)
  srcFqdns : Option (List String)
  destFqdns : Option (List String)
  srcRegionCodes : Option (List String)
  destRegionCodes : Option (List String)
  srcThreatIntelligences : Option (List String)
  destThreatIntelligences : Option (List String)

/-- The `FirewallPolicyRule` message as constructed by `Update.Run`
(lines 181-203 of `rules/update.py`).  `some v` means the keyword argument was
passed with value `v`; `none` means it was omitted (or passed Python `None`,
which protorpc treats as unset).  The source kwarg `match` is named
`matchOpt` here because `match` is reserved in Lean. -/
structure FirewallPolicyRule (L4 : Type) where
  priority : Option Int
  action : Option String
  matchOpt : Option (FirewallPolicyRuleMatcher L4)
  direction : Option Direction
  targetResources : List String
  targetServiceAccounts : List String
  description : Option String
  enableLogging : Option Bool
  disabled : Option Bool
  securityProfileGroup : Option String

/-- The accumulated `should_setup_match` flag of `Update.Run`: it is set
exactly when one of the matcher-related flags read in the active release
track was specified (lines 99-138 of `rules/update.py`). -/
def shouldSetupMatch (track : ReleaseTrack) (args : UpdateArgs) : Bool :=
  args.src_ip_ranges.isSome || args.dest_ip_ranges.isSome ||
  args.layer4_configs.isSome ||
  (track = .alpha && (args.src_fqdns.isSome || args.dest_fqdns.isSome)) ||
  ((track = .alpha || track = .beta) &&
    (args.src_threat_intelligence.isSome ||
     args.dest_threat_intelligence.isSome ||
     args.src_region_codes.isSome || args.dest_region_codes.isSome))

/-- Embedding of `Update.Run` (lines 81-213 of `rules/update.py`), the part
that assembles the outbound update request.  `refName` is `ref.Name()`, the
rule-name positional argument.  The external helpers from modules outside the
source tree are parameters: `convertPriorityToInt` (rule_utils),
`parseLayer4Configs` (rule_utils), `buildSecurityProfileGroupUrl` and
`getFirewallPolicyId` (firewall_policies_utils).  Returns the
`FirewallPolicyRule` message together with the `priority` and
`firewall_policy` arguments passed to `firewall_policy_rule_client.Update`. -/
def updateRun (L4 : Type) (track : ReleaseTrack) (refName : String)
    (convertPriorityToInt : String → Int)
    (parseLayer4Configs : List String → List L4)
    (buildSecurityProfileGroupUrl : String → Option String → String → String)
    (getFirewallPolicyId : String → Option String → String)
    (args : UpdateArgs) : FirewallPolicyRule L4 × Int × String :=
  let priority := convertPriorityToInt refName
  let src_ip_ranges := args.src_ip_ranges.getD []
  let dest_ip_ranges := args.dest_ip_ranges.getD []
  let layer4_config_list :=
    match args.layer4_configs with
    | some l4 => parseLayer4Configs l4
    | none => []
  let target_resources := args.target_resources.getD []
  let target_service_accounts := args.target_service_accounts.getD []
  let src_fqdns := if track = .alpha then args.src_fqdns.getD [] else []
  let dest_fqdns := if track = .alpha then args.dest_fqdns.getD [] else []
  let security_profile_group : Option String :=
    if track = .alpha then
      match args.security_profile_group with
      | some spg =>
          some (buildSecurityProfileGroupUrl spg args.organization
            args.firewall_policy)
      | none => none
    else none
  let src_threat_intelligence :=
    if track = .alpha ∨ track = .beta then
      args.src_threat_intelligence.getD []
    else []
  let dest_threat_intelligence :=
    if track = .alpha ∨ track = .beta then
      args.dest_threat_intelligence.getD []
    else []
  let src_region_codes :=
    if track = .alpha ∨ track = .beta then args.src_region_codes.getD []
    else []
  let dest_region_codes :=
    if track = .alpha ∨ track = .beta then args.dest_region_codes.getD []
    else []
  let enable_logging := args.enable_logging.getD false
  let disabled := args.disabled.getD false
  let new_priority :=
    match args.new_priority with
    | some np => convertPriorityToInt np
    | none => priority
  let should_setup_match := shouldSetupMatch track args
  let matcher : Option (FirewallPolicyRuleMatcher L4) :=
    if should_setup_match then
      if track = .alpha then
        some { srcIpRanges := some src_ip_ranges
               destIpRanges := some dest_ip_ranges
               layer4Configs := some layer4_config_list
               srcFqdns := some src_fqdns
               destFqdns := some dest_fqdns
               srcRegionCodes := some src_region_codes
               destRegionCodes := some dest_region_codes
               srcThreatIntelligences := some src_threat_intelligence
               destThreatIntelligences := some dest_threat_intelligence }
      else if track = .beta then
        some { srcIpRanges := some src_ip_ranges
               destIpRanges := some dest_ip_ranges
               layer4Configs := some layer4_config_list
               srcFqdns := none
               destFqdns := none
               srcRegionCodes := some src_region_codes
               destRegionCodes := some dest_region_codes
               srcThreatIntelligences := some src_threat_intelligence
               destThreatIntelligences := some dest_threat_intelligence }
      else
        some { srcIpRanges := some src_ip_ranges
               destIpRanges := some dest_ip_ranges
               layer4Configs := some layer4_config_list
               srcFqdns := none
               destFqdns := none
               srcRegionCodes := none
               destRegionCodes := none
               srcThreatIntelligences := none
               destThreatIntelligences := none }
    else none
  let traffic_direct : Option Direction :=
    match args.direction with
    | some d => some (if d = "INGRESS" then .ingress else .egress)
    | none => none
  let firewall_policy_rule : FirewallPolicyRule L4 :=
    if track = .alpha then
      { priority := some new_priority
        action := args.action
        matchOpt := matcher
        direction := traffic_direct
        targetResources := target_resources
        targetServiceAccounts := target_service_accounts
        description := args.description
        enableLogging := some enable_logging
        disabled := some disabled
        securityProfileGroup := security_profile_group }
    else
      { priority := some new_priority
        action := args.action
        matchOpt := matcher
        direction := traffic_direct
        targetResources := target_resources
        targetServiceAccounts := target_service_accounts
        description := args.description
        enableLogging := some enable_logging
        disabled := some disabled
        securityProfileGroup := none }
  let firewall_policy_id := getFirewallPolicyId args.firewall_policy
    args.organization
  (firewall_policy_rule, priority, firewall_policy_id)

/-- An `UpdateArgs` namespace in which no optional flag was specified. -/
def emptyUpdateArgs : UpdateArgs :=
  { action := none
    firewall_policy := "123456789"
    organization := none
    src_ip_ranges := none
    dest_ip_ranges := none
    layer4_configs := none
    direction := none
    enable_logging := none
    disabled := none
    target_resources := none
    target_service_accounts := none
    src_fqdns := none
    dest_fqdns := none
    security_profile_group := none
    src_threat_intelligence := none
    dest_threat_intelligence := none
    src_region_codes := none
    dest_region_codes := none
    description := none
    new_priority := none }

/-- The optional flag names the firewall-policy-rule `Update.Args`
registers for a release track (lines 38-65 of `rules/update.py`): the
FQDN and security-profile-group flags exist only in ALPHA, the
threat-intelligence and region-code flags only in ALPHA and BETA. -/
def updateFlagNames (track : ReleaseTrack) : List String :=
  ["action", "firewall_policy", "src_ip_ranges", "dest_ip_ranges",
   "layer4_configs", "direction", "enable_logging", "disabled",
   "target_resources", "target_service_accounts"] ++
  (if track = .alpha then
    ["src_fqdns", "dest_fqdns", "security_profile_group"]
   else []) ++
  (if track = .alpha ∨ track = .beta then
    ["src_threat_intelligence", "dest_threat_intelligence",
     "src_region_codes", "dest_region_codes"]
   else []) ++
  ["description", "new_priority", "organization"]

/-- The names of the optional flags explicitly specified in an argument
namespace (the flags for which `args.IsSpecified` is true). -/
def specifiedFlags (args : UpdateArgs) : List String :=
  (if args.action.isSome then ["action"] else []) ++
  (if args.organization.isSome then ["organization"] else []) ++
  (if args.src_ip_ranges.isSome then ["src_ip_ranges"] else []) ++
  (if args.dest_ip_ranges.isSome then ["dest_ip_ranges"] else []) ++
  (if args.layer4_configs.isSome then ["layer4_configs"] else []) ++
  (if args.direction.isSome then ["direction"] else []) ++
  (if args.enable_logging.isSome then ["enable_logging"] else []) ++
  (if args.disabled.isSome then ["disabled"] else []) ++
  (if args.target_resources.isSome then ["target_resources"] else []) ++
  (if args.target_service_accounts.isSome then
    ["target_service_accounts"] else []) ++
  (if args.src_fqdns.isSome then ["src_fqdns"] else []) ++
  (if args.dest_fqdns.isSome then ["dest_fqdns"] else []) ++
  (if args.security_profile_group.isSome then
    ["security_profile_group"] else []) ++
  (if args.src_threat_intelligence.isSome then
    ["src_threat_intelligence"] else []) ++
  (if args.dest_threat_intelligence.isSome then
    ["dest_threat_intelligence"] else []) ++
  (if args.src_region_codes.isSome then ["src_region_codes"] else []) ++
  (if args.dest_region_codes.isSome then ["dest_region_codes"] else []) ++
  (if args.description.isSome then ["description"] else []) ++
  (if args.new_priority.isSome then ["new_priority"] else [])

/-- The channel-gating error of the argument layer. -/
inductive GateError where
  | unsupportedOption (name : String)
deriving DecidableEq, Repr

/-- Modelled from the spec: the rejection performed by the argument-parsing
layer (calliope/argparse), which is not under the source tree.  `Update.Args`
registers only the flags of the active release track, so a flag explicitly
provided in a channel that does not register it is rejected; per the spec
this surfaces as `UnsupportedOptionError`, while an option that is merely
left unset is ignored. -/
def channelGate (track : ReleaseTrack) (provided : List String) :
    Except GateError Unit :=
  match provided.find? (fun f => decide (f ∉ updateFlagNames track)) with
  | some f => .error (.unsupportedOption f)
  | none => .ok ()

/-- Absence, from an outbound `FirewallPolicyRule`, of the request field
corresponding to a channel-gated option name. -/
def ruleFieldAbsent {L4 : Type} (O : String)
    (r : FirewallPolicyRule L4) : Prop :=
  (O = "src_fqdns" →
    r.matchOpt.elim True (fun m => m.srcFqdns = none)) ∧
  (O = "dest_fqdns" →
    r.matchOpt.elim True (fun m => m.destFqdns = none)) ∧
  (O = "security_profile_group" → r.securityProfileGroup = none) ∧
  (O = "src_threat_intelligence" →
    r.matchOpt.elim True (fun m => m.srcThreatIntelligences = none)) ∧
  (O = "dest_threat_intelligence" →
    r.matchOpt.elim True (fun m => m.destThreatIntelligences = none)) ∧
  (O = "src_region_codes" →
    r.matchOpt.elim True (fun m => m.srcRegionCodes = none)) ∧
  (O = "dest_region_codes" →
    r.matchOpt.elim True (fun m => m.destRegionCodes = none))

/-- An argument namespace that explicitly sets the ALPHA-only
`--src-fqdns` flag and nothing else. -/
def fqdnArgs : UpdateArgs :=
  { emptyUpdateArgs with src_fqdns := some ["a.example"] }

/-- The matcher field set that the GA construction of `Update.Run` produces:
the three core fields are populated and every BETA/ALPHA-only field was
omitted from the constructor call. -/
def gaMatcherShape {L4 : Type} (m : FirewallPolicyRuleMatcher L4) : Prop :=
  m.srcIpRanges.isSome = true ∧ m.destIpRanges.isSome = true ∧
  m.layer4Configs.isSome = true ∧
  m.srcFqdns = none ∧ m.destFqdns = none ∧
  m.srcRegionCodes = none ∧ m.destRegionCodes = none ∧
  m.srcThreatIntelligences = none ∧ m.destThreatIntelligences = none

/-- The matcher field set that the BETA construction of `Update.Run`
produces: the three core fields plus region-code and threat-intelligence
fields are populated, and the ALPHA-only FQDN fields were omitted. -/
def betaMatcherShape {L4 : Type} (m : FirewallPolicyRuleMatcher L4) : Prop :=
  m.srcIpRanges.isSome = true ∧ m.destIpRanges.isSome = true ∧
  m.layer4Configs.isSome = true ∧
  m.srcFqdns = none ∧ m.destFqdns = none ∧
  m.srcRegionCodes.isSome = true ∧ m.destRegionCodes.isSome = true ∧
  m.srcThreatIntelligences.isSome = true ∧
  m.destThreatIntelligences.isSome = true

end FirewallRules

namespace ClustersCreate

/-- The adapter methods invoked by the operation section of `Create.Run`
(lines 1149-1178 of `clusters/create.py`); used to trace which network calls
a run performs. -/
inductive AdapterCall where
  | createCluster
  | waitForOperation
  | getCluster
deriving DecidableEq, Repr

/-- Exceptions that the container api_adapter calls can raise.
`httpError` is `apitools_exceptions.HttpError`, carrying the provider's
structured error payload.  The adapter itself is not under the source tree;
per the spec, `WaitForOperation` raises a non-HTTP error when the operation
reaches DONE with an error payload (`opFailed`) or when polling times out
(`opTimeout`), and `ClusterConfig.Persist` can raise
`kconfig.MissingEnvVarError` (`missingEnvVar`). -/
inductive AdapterExc where
  | httpError (payload : String)
  | opFailed (payload : String)
  | opTimeout (payload : String)
  | missingEnvVar (msg : String)
deriving DecidableEq, Repr

/-- A terminal long-running operation as returned by
`adapter.WaitForOperation`; `detail` is its diagnostic detail string
(empty string models an absent detail, matching Python truthiness of
`operation.detail`). -/
structure Operation where
  detail : String
deriving DecidableEq, Repr

/-- The api_adapter as seen from `Create.Run`, already applied to the
cluster reference and parsed options: each method yields either a value or
an exception.  The adapter's implementation is outside the source tree; the
embedding only fixes its interface. -/
structure Adapter (OpRef Cluster : Type) where
  createCluster : Except AdapterExc OpRef
  waitForOperation : OpRef → Int → Except AdapterExc Operation
  getCluster : Except AdapterExc Cluster
  persist : Cluster → Except AdapterExc Unit

/-- The error surfaced out of `Create.Run`: the `except
apitools_exceptions.HttpError` clause around the operation section wraps an
HTTP error as `exceptions.HttpException` (keeping the provider payload);
every other exception propagates unchanged (`reraised`). -/
inductive SurfacedExc where
  | httpException (payload : String)
  | reraised (e : AdapterExc)
deriving DecidableEq, Repr

/-- The value `Create.Run` returns: the async path returns the fetched
cluster itself (`return adapter.GetCluster(cluster_ref)`), the synchronous
path returns a one-element list (`return [cluster]`). -/
inductive RunResult (Cluster : Type) where
  | one (c : Cluster)
  | many (l : List Cluster)
deriving DecidableEq, Repr

/-- The `except apitools_exceptions.HttpError` clause of `Create.Run`
(lines 1161-1162): an HTTP error becomes `HttpException`, anything else is
not caught. -/
def handleHttp (e : AdapterExc) : SurfacedExc :=
  match e with
  | .httpError p => .httpException p
  | e => .reraised e

/-- Embedding of the operation section of `Create.Run` (lines 1149-1178 of
`clusters/create.py`): submit via `adapter.CreateCluster`, return early on
`--async`, await the operation, fetch the resulting cluster, surface a
non-empty operation detail as a warning, persist the kubeconfig entry
(warning on `MissingEnvVarError`), and return the cluster.  The result is
the surfaced value or exception, the ordered trace of adapter network calls
made, and the list of warnings logged via `log.warning`. -/
def runCreateLRO {OpRef Cluster : Type} (ad : Adapter OpRef Cluster)
    (asyncFlag : Bool) (timeout_s : Int) :
    Except SurfacedExc (RunResult Cluster) × List AdapterCall ×
      List String :=
  match ad.createCluster with
  | .error e => (.error (handleHttp e), [.createCluster], [])
  | .ok operation_ref =>
    if asyncFlag then
      match ad.getCluster with
      | .error e =>
          (.error (handleHttp e), [.createCluster, .getCluster], [])
      | .ok c => (.ok (.one c), [.createCluster, .getCluster], [])
    else
      match ad.waitForOperation operation_ref timeout_s with
      | .error e =>
          (.error (handleHttp e), [.createCluster, .waitForOperation], [])
      | .ok operation =>
        match ad.getCluster with
        | .error e =>
            (.error (handleHttp e),
             [.createCluster, .waitForOperation, .getCluster], [])
        | .ok cluster =>
          let warnings :=
            if operation.detail ≠ "" then [operation.detail] else []
          match ad.persist cluster with
          | .error (.missingEnvVar m) =>
              (.ok (.many [cluster]),
               [.createCluster, .waitForOperation, .getCluster],
               warnings ++ [m])
          | .error e =>
              (.error (.reraised e),
               [.createCluster, .waitForOperation, .getCluster], warnings)
          | .ok _ =>
              (.ok (.many [cluster]),
               [.createCluster, .waitForOperation, .getCluster], warnings)

/-- Errors arising before any network call in the cluster-create command. -/
inductive CreateError where
  | conflictingOptions (a b : String)
  | unsupportedOption (name : String)
  | typeError
deriving DecidableEq, Repr

/-- Modelled from the spec: the mutually-exclusive option pairs of the
cluster-create command.  `_AddAdditionalZonesGroup` (lines 69-72 of
`clusters/create.py`) declares `--additional-zones` and `--node-locations`
inside an argparse mutually-exclusive group, and the `--subnetwork` help
text (lines 109-117) forbids combining it with `--create-subnetwork`; the
code that enforces these conflicts (the calliope/argparse layer and the
api_adapter check) is not under the source tree. -/
def mutexPairs : List (String × String) :=
  [("additional_zones", "node_locations"),
   ("subnetwork", "create_subnetwork")]

/-- Modelled from the spec: validation of the mutually-exclusive option
pairs — if both options of a declared pair are set, the build fails with
`ConflictingOptionsError`, whatever their values.  `specified` maps an
option name to whether the caller explicitly set it. -/
def validateMutex (specified : String → Bool) : Except CreateError Unit :=
  match mutexPairs.find? (fun p => specified p.1 && specified p.2) with
  | some p => .error (.conflictingOptions p.1 p.2)
  | none => .ok ()

/-- An error surfaced by the composed build-then-submit pipeline: either a
local build/validation error (raised before any network call) or an error
surfaced from the operation section. -/
inductive CommandExc where
  | build (e : CreateError)
  | run (e : SurfacedExc)
deriving DecidableEq, Repr

/-- The cluster-create pipeline with the spec-modelled option validation in
front of the operation section of `Create.Run`: a validation failure is
surfaced immediately and no adapter call is made. -/
def buildThenSubmit {OpRef Cluster : Type} (specified : String → Bool)
    (ad : Adapter OpRef Cluster) (asyncFlag : Bool) (timeout_s : Int) :
    Except CommandExc (RunResult Cluster) × List AdapterCall ×
      List String :=
  match validateMutex specified with
  | .error e => (.error (.build e), [], [])
  | .ok _ =>
    match runCreateLRO ad asyncFlag timeout_s with
    | (.error e, trace, warns) => (.error (.run e), trace, warns)
    | (.ok v, trace, warns) => (.ok v, trace, warns)

/-- A concrete adapter whose submit call is rejected by the provider with an
HTTP error. -/
def failSubmitAdapter : Adapter Unit Unit :=
  { createCluster := .error (.httpError "quota exceeded")
    waitForOperation := fun _ _ => .ok { detail := "" }
    getCluster := .ok ()
    persist := fun _ => .ok () }

/-- A concrete adapter whose operation succeeds but whose subsequent cluster
fetch fails with an HTTP error. -/
def fetchFailAdapter : Adapter Unit Unit :=
  { createCluster := .ok ()
    waitForOperation := fun _ _ => .ok { detail := "" }
    getCluster := .error (.httpError "permission denied")
    persist := fun _ => .ok () }

/-- A concrete adapter whose operation reaches DONE with an error payload. -/
def opFailAdapter : Adapter Unit Unit :=
  { createCluster := .ok ()
    waitForOperation := fun _ _ => .error (.opFailed "conflict")
    getCluster := .ok ()
    persist := fun _ => .ok () }

/-- A concrete adapter whose operation succeeds with a non-empty diagnostic
detail string. -/
def detailAdapter : Adapter Unit Unit :=
  { createCluster := .ok ()
    waitForOperation := fun _ _ => .ok { detail := "node quota reduced" }
    getCluster := .ok ()
    persist := fun _ => .ok () }

/-- A specification map on which both `--subnetwork` and
`--create-subnetwork` are explicitly set. -/
def bothSubnetworkSpecified : String → Bool :=
  fun n => n == "subnetwork" || n == "create_subnetwork"

end ClustersCreate

namespace OrgPolicySim

/-- The parsed argument namespace of `SimulateAlpha` (`_ArgsAlpha` in
`simulate/orgpolicy.py`).  Both flags are `ArgList`-typed with no default:
`none` models the Python `None` an unspecified flag parses to, `some l` a
specified comma-separated list. -/
structure SimulateArgs where
  policies : Option (List String)
  custom_constraints : Option (List String)
deriving DecidableEq, Repr

/-- The policy message parsed from a policy file
(`utils.GetPolicyMessageFromFile`); `name` is `policy_message.policy.name`,
with the empty string modelling a missing/empty name (Python falsy). -/
structure PolicyMessage where
  name : String
deriving DecidableEq, Repr

/-- The custom-constraint message parsed from a constraint file
(`utils.GetCustomConstraintMessageFromFile`); `name` is
`constraint_message.customConstraint.name`. -/
structure CustomConstraintMessage where
  name : String
deriving DecidableEq, Repr

/-- Exceptions that the argument-processing prefix of `SimulateAlpha.Run`
can raise: the explicit calliope exceptions, plus the Python runtime errors
the code can hit — `typeError` for iterating over `None` and `indexError`
for indexing an empty list. -/
inductive SimulateExc where
  | conflictingArguments (msg : String)
  | invalidArgument (arg msg : String)
  | typeError
  | indexError
deriving DecidableEq, Repr

/-- The loop over `args.policies` in `SimulateAlpha.Run` (lines 99-107):
each path is parsed and rejected when the parsed policy has no name. -/
def collectPolicies (getPolicyMessage : String → PolicyMessage) :
    List String → Except SimulateExc (List PolicyMessage)
  | [] => .ok []
  | p :: rest =>
    let policy_message := getPolicyMessage p
    if policy_message.name = "" then
      .error (.invalidArgument "Policy name"
        "name field not present in the organization policy.")
    else
      match collectPolicies getPolicyMessage rest with
      | .error e => .error e
      | .ok l => .ok (policy_message :: l)

/-- The loop over `args.custom_constraints` in `SimulateAlpha.Run`
(lines 108-117). -/
def collectConstraints
    (getCustomConstraintMessage : String → CustomConstraintMessage) :
    List String → Except SimulateExc (List CustomConstraintMessage)
  | [] => .ok []
  | c :: rest =>
    let constraint_message := getCustomConstraintMessage c
    if constraint_message.name = "" then
      .error (.invalidArgument "Custom constraint name"
        "name field not present in the custom constraint.")
    else
      match collectConstraints getCustomConstraintMessage rest with
      | .error e => .error e
      | .ok l => .ok (constraint_message :: l)

/-- Embedding of the argument-processing prefix of `SimulateAlpha.Run`
(lines 91-125 of `simulate/orgpolicy.py`): the either/or validation, the two
parsing loops, and the access `policies[0].policy.name` feeding
`GetResourceFromPolicyName`.  External parsers are parameters.  Iterating a
`for` loop over an unspecified (`None`) flag raises `TypeError`;
`policies[0]` on an empty list raises `IndexError` — both are modelled as
explicit error outcomes. -/
def simulateRunHead (getPolicyMessage : String → PolicyMessage)
    (getCustomConstraintMessage : String → CustomConstraintMessage)
    (getResourceFromPolicyName : String → String)
    (args : SimulateArgs) :
    Except SimulateExc
      (List PolicyMessage × List CustomConstraintMessage × String) :=
  if (args.policies.elim true List.isEmpty) &&
      (args.custom_constraints.elim true List.isEmpty) then
    .error (.conflictingArguments
      "Must specify either --policies or --custom-constraints or both.")
  else
    match args.policies with
    | none => .error .typeError
    | some ps =>
      match collectPolicies getPolicyMessage ps with
      | .error e => .error e
      | .ok policies =>
        match args.custom_constraints with
        | none => .error .typeError
        | some cs =>
          match collectConstraints getCustomConstraintMessage cs with
          | .error e => .error e
          | .ok custom_constraints =>
            match policies with
            | [] => .error .indexError
            | pm :: _ =>
              .ok (policies, custom_constraints,
                getResourceFromPolicyName pm.name)

end OrgPolicySim

namespace ClustersCreate

/-- A dynamically-typed Python value as held by a parsed flag: Python `None`,
a boolean, an integer, a string, a list of strings, or a string-keyed
dictionary. -/
inductive PyVal where
  | none
  | bool (b : Bool)
  | int (n : Int)
  | str (s : String)
  | strList (l : List String)
  | pairs (l : List (String × String))
deriving DecidableEq, Repr

/-- Python truthiness of a `PyVal` (`if value:`). -/
def pyTruthy : PyVal → Bool
  | .none => false
  | .bool b => b
  | .int n => n != 0
  | .str s => s != ""
  | .strList l => !l.isEmpty
  | .pairs l => !l.isEmpty

/-- An argparse namespace as read by the cluster-create option parsing:
`attrs` maps an attribute name to its value when the attribute exists
(`hasattr`), and `specified` records `args.IsSpecified` per flag. -/
structure CreateArgs where
  attrs : String → Option PyVal
  specified : String → Bool

/-- Python `hasattr(args, name)`. -/
def hasattr (args : CreateArgs) (name : String) : Bool :=
  (args.attrs name).isSome

/-- Python `getattr(args, name, default)`. -/
def getattrD (args : CreateArgs) (name : String) (d : PyVal) : PyVal :=
  (args.attrs name).getD d

/-- `DefaultAttribute` (lines 404-407 of `clusters/create.py`): the value of
a flag name in the flag-defaults mapping, or Python `None` when absent. -/
def DefaultAttribute (flagname : String)
    (flag_defaults : String → Option PyVal) : PyVal :=
  match flag_defaults flagname with
  | some v => v
  | Option.none => PyVal.none

/-- `AttrValue` (lines 410-411 of `clusters/create.py`):
`getattr(args, flagname, DefaultAttribute(flagname, flag_defaults))`. -/
def AttrValue (args : CreateArgs) (flagname : String)
    (flag_defaults : String → Option PyVal) : PyVal :=
  getattrD args flagname (DefaultAttribute flagname flag_defaults)

/-- `base_flag_defaults` (lines 1030-1032 of `clusters/create.py`). -/
def base_flag_defaults : String → Option PyVal :=
  fun k => if k = "num_nodes" then some (.int 3) else Option.none

/-- `_GetEnableStackdriver` (lines 75-81 of `clusters/create.py`). -/
def getEnableStackdriver (args : CreateArgs) : PyVal :=
  if ¬ hasattr args "enable_stackdriver_kubernetes" then .none
  else if ¬ args.specified "enable_stackdriver_kubernetes" then .none
  else getattrD args "enable_stackdriver_kubernetes" .none

/-- `cloudNatTemplate.substitute(REGION=..., PROJECT_ID=...)`
(lines 146-155 of `clusters/create.py`). -/
def cloudNatMessage (region project_id : String) : String :=
  "Note: This cluster has private nodes. If you need connectivity to the " ++
  "public internet, for example to pull public containers, you must " ++
  "configure Cloud NAT. To enable NAT for the network of this cluster, " ++
  "run the following commands: \n" ++
  "gcloud compute routers create my-router --region " ++ region ++
  " --network default --project=" ++ project_id ++ " \n" ++
  "gcloud beta compute routers nats create nat --router=my-router " ++
  "--region=" ++ region ++ " --auto-allocate-nat-external-ips " ++
  "--nat-all-subnet-ip-ranges --project=" ++ project_id

/-- `MaybeLogCloudNatHelpText` (lines 158-162 of `clusters/create.py`).
Returns the advisory messages printed.  The source condition is
`is_autopilot and (getattr(args, 'enable_private_nodes', False) and
(hasattr(args, 'network') or hasattr('subnetwork')))`; the second `hasattr`
is called with a single argument, so when the first two conjuncts hold and
`args` has no `network` attribute, evaluating it raises `TypeError` — kept
faithfully as an error outcome. -/
def maybeLogCloudNatHelpText (args : CreateArgs) (is_autopilot : Bool)
    (location project_id : String) : Except CreateError (List String) :=
  if is_autopilot &&
      pyTruthy (getattrD args "enable_private_nodes" (.bool false)) then
    if hasattr args "network" then
      .ok [cloudNatMessage location project_id]
    else .error .typeError
  else .ok []

/-- The helper functions `ParseCreateOptionsBase` calls that live in modules
outside the source tree (`flags`, `cmd_util`, `metadata_utils`, `utils`);
each is a parameter of the embedding, with the source argument shapes.  The
`warn...` helpers return the advisory messages they print, the
`validate...` helpers can raise. -/
structure CreateHelpers where
  mungeBasicAuthFlags : CreateArgs → CreateArgs
  warnForUnspecifiedIpAllocationPolicy : CreateArgs → List String
  getAutoRepair : CreateArgs → PyVal
  warnForNodeModification : CreateArgs → PyVal → List String
  constructMetadataDict : PyVal → PyVal → PyVal
  getLegacyCloudRunFlag : String → CreateArgs → (String → PyVal) → PyVal
  validateCloudRunConfigCreateArgs :
    PyVal → PyVal → Except CreateError Unit
  validateNotificationConfigFlag : CreateArgs → Except CreateError Unit
  warnForLocationPolicyDefault : CreateArgs → List String
  getAutoUpgrade : CreateArgs → PyVal
  bytesToGb : PyVal → PyVal

/-- Embedding of `ParseCreateOptionsBase` (lines 176-349 of
`clusters/create.py`) fused with the `get_default` closure of
`Create.ParseCreateOptions` (line 1058): `get_default` reads the same
namespace object that `flags.MungeBasicAuthFlags` has already mutated, so
here it is defined over the munged namespace.  The resulting
`api_adapter.CreateClusterOptions(...)` constructor call is embedded as its
keyword-argument list in source order.  `log` threads the advisory-message
log; every step only appends to it. -/
def parseCreateOptionsBase (h : CreateHelpers) (args0 : CreateArgs)
    (is_autopilot : Bool) (flag_defaults : String → Option PyVal)
    (location project_id : String) (log : List String) :
    Except CreateError (List (String × PyVal)) × List String :=
  let args := h.mungeBasicAuthFlags args0
  let gd : String → PyVal := fun key => AttrValue args key flag_defaults
  let enable_ip_alias := gd "enable_ip_alias"
  let log := log ++
    (if hasattr args "enable_ip_alias" then
      h.warnForUnspecifiedIpAllocationPolicy args
     else [])
  let enable_autorepair :=
    if hasattr args "enable_autorepair" then h.getAutoRepair args
    else PyVal.none
  let log := log ++
    (if hasattr args "enable_autorepair" && pyTruthy enable_autorepair then
      h.warnForNodeModification args enable_autorepair
     else [])
  let metadata :=
    h.constructMetadataDict (gd "metadata") (gd "metadata_from_file")
  let cloud_run_config := h.getLegacyCloudRunFlag "\x7b\x7d_config" args gd
  match h.validateCloudRunConfigCreateArgs cloud_run_config
      (gd "addons") with
  | .error e => (.error e, log)
  | .ok _ =>
  match maybeLogCloudNatHelpText args is_autopilot location project_id with
  | .error e => (.error e, log)
  | .ok natMsgs =>
  let log := log ++ natMsgs
  match h.validateNotificationConfigFlag args with
  | .error e => (.error e, log)
  | .ok _ =>
  let log := log ++ h.warnForLocationPolicyDefault args
  (.ok
    [("accelerators", gd "accelerator"),
     ("additional_zones", gd "additional_zones"),
     ("addons", gd "addons"),
     ("boot_disk_kms_key", gd "boot_disk_kms_key"),
     ("cluster_dns", gd "cluster_dns"),
     ("cluster_dns_scope", gd "cluster_dns_scope"),
     ("cluster_dns_domain", gd "cluster_dns_domain"),
     ("cluster_ipv4_cidr", gd "cluster_ipv4_cidr"),
     ("cluster_secondary_range_name", gd "cluster_secondary_range_name"),
     ("cluster_version", gd "cluster_version"),
     ("cloud_run_config", cloud_run_config),
     ("node_version", gd "node_version"),
     ("create_subnetwork", gd "create_subnetwork"),
     ("disable_default_snat", gd "disable_default_snat"),
     ("dataplane_v2", gd "enable_dataplane_v2"),
     ("disk_type", gd "disk_type"),
     ("enable_autorepair", enable_autorepair),
     ("enable_autoscaling", gd "enable_autoscaling"),
     ("location_policy", gd "location_policy"),
     ("enable_autoupgrade",
       if hasattr args "enable_autoupgrade" then h.getAutoUpgrade args
       else PyVal.none),
     ("enable_binauthz", gd "enable_binauthz"),
     ("binauthz_evaluation_mode", gd "binauthz_evaluation_mode"),
     ("enable_stackdriver_kubernetes", getEnableStackdriver args),
     ("enable_cloud_logging",
       if hasattr args "enable_cloud_logging" &&
           args.specified "enable_cloud_logging" then
         getattrD args "enable_cloud_logging" .none
       else PyVal.none),
     ("enable_cloud_monitoring",
       if hasattr args "enable_cloud_monitoring" &&
           args.specified "enable_cloud_monitoring" then
         getattrD args "enable_cloud_monitoring" .none
       else PyVal.none),
     ("enable_workload_monitoring_eap",
       gd "enable_workload_monitoring_eap"),
     ("logging", gd "logging"),
     ("monitoring", gd "monitoring"),
     ("enable_l4_ilb_subsetting", gd "enable_l4_ilb_subsetting"),
     ("enable_ip_alias", enable_ip_alias),
     ("enable_intra_node_visibility", gd "enable_intra_node_visibility"),
     ("enable_kubernetes_alpha", gd "enable_kubernetes_alpha"),
     ("enable_cloud_run_alpha",
       h.getLegacyCloudRunFlag "enable_\x7b\x7d_alpha" args gd),
     ("enable_legacy_authorization", gd "enable_legacy_authorization"),
     ("enable_managed_prometheus", gd "enable_managed_prometheus"),
     ("enable_master_authorized_networks",
       gd "enable_master_authorized_networks"),
     ("enable_master_global_access", gd "enable_master_global_access"),
     ("enable_mesh_certificates", gd "enable_mesh_certificates"),
     ("enable_network_policy", gd "enable_network_policy"),
     ("enable_private_nodes", gd "enable_private_nodes"),
     ("enable_private_endpoint", gd "enable_private_endpoint"),
     ("enable_gke_oidc", getattrD args "enable_gke_oidc" .none),
     ("enable_identity_service",
       getattrD args "enable_identity_service" .none),
     ("image_type", gd "image_type"),
     ("image", gd "image"),
     ("image_project", gd "image_project"),
     ("image_family", gd "image_family"),
     ("issue_client_certificate", gd "issue_client_certificate"),
     ("labels", gd "labels"),
     ("local_ssd_count", gd "local_ssd_count"),
     ("maintenance_window", gd "maintenance_window"),
     ("maintenance_window_start", gd "maintenance_window_start"),
     ("maintenance_window_end", gd "maintenance_window_end"),
     ("maintenance_window_recurrence",
       gd "maintenance_window_recurrence"),
     ("master_authorized_networks", gd "master_authorized_networks"),
     ("master_ipv4_cidr", gd "master_ipv4_cidr"),
     ("max_nodes", gd "max_nodes"),
     ("max_nodes_per_pool", gd "max_nodes_per_pool"),
     ("min_cpu_platform", gd "min_cpu_platform"),
     ("min_nodes", gd "min_nodes"),
     ("total_max_nodes", gd "total_max_nodes"),
     ("total_min_nodes", gd "total_min_nodes"),
     ("network", gd "network"),
     ("node_disk_size_gb",
       if hasattr args "disk_size" then
         h.bytesToGb (getattrD args "disk_size" .none)
       else PyVal.none),
     ("node_labels", gd "node_labels"),
     ("node_locations", gd "node_locations"),
     ("node_machine_type", gd "machine_type"),
     ("node_taints", gd "node_taints"),
     ("notification_config", gd "notification_config"),
     ("autoscaling_profile", getattrD args "autoscaling_profile" .none),
     ("num_nodes", gd "num_nodes"),
     ("password", gd "password"),
     ("preemptible", gd "preemptible"),
     ("security_group", gd "security_group"),
     ("scopes", gd "scopes"),
     ("service_account", gd "service_account"),
     ("services_ipv4_cidr", gd "services_ipv4_cidr"),
     ("services_secondary_range_name",
       gd "services_secondary_range_name"),
     ("subnetwork", gd "subnetwork"),
     ("system_config_from_file", gd "system_config_from_file"),
     ("private_ipv6_google_access_type",
       gd "private_ipv6_google_access_type"),
     ("tags", gd "tags"),
     ("autoprovisioning_network_tags",
       gd "autoprovisioning_network_tags"),
     ("threads_per_core", gd "threads_per_core"),
     ("user", gd "username"),
     ("metadata", metadata),
     ("default_max_pods_per_node", gd "default_max_pods_per_node"),
     ("max_pods_per_node", gd "max_pods_per_node"),
     ("enable_tpu", gd "enable_tpu"),
     ("tpu_ipv4_cidr", gd "tpu_ipv4_cidr"),
     ("resource_usage_bigquery_dataset",
       gd "resource_usage_bigquery_dataset"),
     ("enable_network_egress_metering",
       gd "enable_network_egress_metering"),
     ("enable_resource_consumption_metering",
       gd "enable_resource_consumption_metering"),
     ("database_encryption_key", gd "database_encryption_key"),
     ("workload_pool", gd "workload_pool"),
     ("identity_provider", gd "identity_provider"),
     ("tune_gke_metadata_server_cpu", gd "tune_gke_metadata_server_cpu"),
     ("tune_gke_metadata_server_memory",
       gd "tune_gke_metadata_server_memory"),
     ("workload_metadata", gd "workload_metadata"),
     ("workload_metadata_from_node", gd "workload_metadata_from_node"),
     ("enable_vertical_pod_autoscaling",
       gd "enable_vertical_pod_autoscaling"),
     ("enable_experimental_vertical_pod_autoscaling",
       gd "enable_experimental_vertical_pod_autoscaling"),
     ("enable_autoprovisioning", gd "enable_autoprovisioning"),
     ("autoprovisioning_config_file", gd "autoprovisioning_config_file"),
     ("autoprovisioning_service_account",
       gd "autoprovisioning_service_account"),
     ("autoprovisioning_scopes", gd "autoprovisioning_scopes"),
     ("autoprovisioning_locations", gd "autoprovisioning_locations"),
     ("autoprovisioning_max_surge_upgrade",
       gd "autoprovisioning_max_surge_upgrade"),
     ("autoprovisioning_max_unavailable_upgrade",
       gd "autoprovisioning_max_unavailable_upgrade"),
     ("enable_autoprovisioning_surge_upgrade",
       gd "enable_autoprovisioning_surge_upgrade"),
     ("enable_autoprovisioning_blue_green_upgrade",
       gd "enable_autoprovisioning_blue_green_upgrade"),
     ("autoprovisioning_standard_rollout_policy",
       gd "autoprovisioning_standard_rollout_policy"),
     ("autoprovisioning_node_pool_soak_duration",
       gd "autoprovisioning_node_pool_soak_duration"),
     ("enable_autoprovisioning_autorepair",
       gd "enable_autoprovisioning_autorepair"),
     ("enable_autoprovisioning_autoupgrade",
       gd "enable_autoprovisioning_autoupgrade"),
     ("autoprovisioning_min_cpu_platform",
       gd "autoprovisioning_min_cpu_platform"),
     ("min_cpu", gd "min_cpu"),
     ("max_cpu", gd "max_cpu"),
     ("min_memory", gd "min_memory"),
     ("max_memory", gd "max_memory"),
     ("min_accelerator", gd "min_accelerator"),
     ("max_accelerator", gd "max_accelerator"),
     ("autoprovisioning_image_type", gd "autoprovisioning_image_type"),
     ("shielded_secure_boot", gd "shielded_secure_boot"),
     ("shielded_integrity_monitoring",
       gd "shielded_integrity_monitoring"),
     ("reservation_affinity", gd "reservation_affinity"),
     ("reservation", gd "reservation"),
     ("release_channel", gd "release_channel"),
     ("enable_shielded_nodes", gd "enable_shielded_nodes"),
     ("max_surge_upgrade", gd "max_surge_upgrade"),
     ("max_unavailable_upgrade", gd "max_unavailable_upgrade"),
     ("autopilot", PyVal.bool is_autopilot),
     ("gvnic", gd "enable_gvnic"),
     ("enable_confidential_nodes", gd "enable_confidential_nodes"),
     ("enable_image_streaming", gd "enable_image_streaming"),
     ("spot", gd "spot"),
     ("enable_service_externalips", gd "enable_service_externalips"),
     ("disable_pod_cidr_overprovision",
       gd "disable_pod_cidr_overprovision"),
     ("private_endpoint_subnetwork", gd "private_endpoint_subnetwork"),
     ("enable_google_cloud_access", gd "enable_google_cloud_access"),
     ("gateway_api", gd "gateway_api"),
     ("logging_variant", gd "logging_variant")],
   log)

end ClustersCreate

open FirewallRules in
/-- C1 (counterexample): the claim that an update specifying neither
`--enable-logging` nor `--disabled` leaves those request fields absent is
false on the code: `Update.Run` initialises `enable_logging = False` and
`disabled = False` and always passes both to the `FirewallPolicyRule`
constructor, so with no flag specified at all the outbound rule carries
`enableLogging = False` and `disabled = False`. -/
theorem update_unset_booleans_sent_as_false :
    ((updateRun Unit .ga "10" (fun _ => 10) (fun _ => [])
        (fun s _ _ => s) (fun s _ => s)
        emptyUpdateArgs).1.enableLogging = some false) ∧
    ((updateRun Unit .ga "10" (fun _ => 10) (fun _ => [])
        (fun s _ _ => s) (fun s _ => s)
        emptyUpdateArgs).1.disabled = some false) :=
  ⟨rfl, rfl⟩

open FirewallRules in
/-- C1 (amended): in the request built by `Update.Run`, unspecified options
are absent for the `match` and `direction` fields (no matcher is constructed
when no matcher-related flag of the active track is specified, and the
direction is omitted when `--direction` is unspecified), but the boolean
options are not: an update that specifies neither `--enable-logging` nor
`--disabled` populates both request fields with `False`. -/
theorem update_unset_options_absence_amended (L4 : Type)
    (track : ReleaseTrack) (refName : String)
    (conv : String → Int) (parse : List String → List L4)
    (spg : String → Option String → String → String)
    (gid : String → Option String → String) (args : UpdateArgs)
    (hel : args.enable_logging = none) (hdis : args.disabled = none) :
    ((updateRun L4 track refName conv parse spg gid args).1.enableLogging
        = some false) ∧
    ((updateRun L4 track refName conv parse spg gid args).1.disabled
        = some false) ∧
    (shouldSetupMatch track args = false →
      (updateRun L4 track refName conv parse spg gid args).1.matchOpt
        = none) ∧
    (args.direction = none →
      (updateRun L4 track refName conv parse spg gid args).1.direction
        = none) := by
  refine ⟨?_, ?_, ?_, ?_⟩ <;>
    cases track <;>
      simp [updateRun, hel, hdis] <;>
        intro h <;> simp [h]

open FirewallRules in
/-- C1 (witness for the amended theorem): on a fully-unspecified argument
namespace in the GA track the built rule carries `enableLogging = False`,
`disabled = False`, no matcher and no direction. -/
theorem update_unset_options_absence_amended_witness :
    emptyUpdateArgs.enable_logging = none ∧ emptyUpdateArgs.disabled = none ∧
    (((updateRun Unit .ga "10" (fun _ => 10) (fun _ => [])
        (fun s _ _ => s) (fun s _ => s)
        emptyUpdateArgs).1.enableLogging = some false) ∧
     ((updateRun Unit .ga "10" (fun _ => 10) (fun _ => [])
        (fun s _ _ => s) (fun s _ => s)
        emptyUpdateArgs).1.disabled = some false) ∧
     (shouldSetupMatch .ga emptyUpdateArgs = false →
       (updateRun Unit .ga "10" (fun _ => 10) (fun _ => [])
        (fun s _ _ => s) (fun s _ => s)
        emptyUpdateArgs).1.matchOpt = none) ∧
     (emptyUpdateArgs.direction = none →
       (updateRun Unit .ga "10" (fun _ => 10) (fun _ => [])
        (fun s _ _ => s) (fun s _ => s)
        emptyUpdateArgs).1.direction = none)) :=
  ⟨rfl, rfl,
    update_unset_options_absence_amended Unit .ga "10" (fun _ => 10)
      (fun _ => []) (fun s _ _ => s) (fun s _ => s) emptyUpdateArgs rfl rfl⟩

open FirewallRules in
/-- C2: BETA/ALPHA-only options never populate the GA request shape built by
`Update.Run`: whatever the argument namespace, the GA rule's matcher (when
constructed) populates exactly the three core fields `srcIpRanges`,
`destIpRanges` and `layer4Configs` and omits the FQDN, region-code and
threat-intelligence fields, and the GA rule omits `securityProfileGroup`;
the BETA rule additionally populates region-code and threat-intelligence
fields but still omits the ALPHA-only FQDN fields and
`securityProfileGroup`, so GA, BETA and ALPHA build structurally distinct
field sets sharing the common core. -/
theorem update_ga_shape_excludes_beta_alpha_fields (L4 : Type)
    (refName : String) (conv : String → Int)
    (parse : List String → List L4)
    (spg : String → Option String → String → String)
    (gid : String → Option String → String) (args : UpdateArgs) :
    ((updateRun L4 .ga refName conv parse spg gid args).1.matchOpt.elim True
        gaMatcherShape) ∧
    ((updateRun L4 .ga refName conv parse spg gid
        args).1.securityProfileGroup = none) ∧
    ((updateRun L4 .beta refName conv parse spg gid args).1.matchOpt.elim True
        betaMatcherShape) ∧
    ((updateRun L4 .beta refName conv parse spg gid
        args).1.securityProfileGroup = none) := by
  refine ⟨?_, ?_, ?_, ?_⟩ <;>
    simp only [updateRun] <;>
      by_cases h : shouldSetupMatch .ga args <;>
        by_cases h' : shouldSetupMatch .beta args <;>
          simp [h, h', gaMatcherShape, betaMatcherShape]

open FirewallRules in
/-- C10: when `--new-priority` is not specified, the `FirewallPolicyRule`
sent by `Update.Run` carries exactly the priority converted from the
rule-name positional argument, which is also the priority argument of the
`Update` client call — the rule's priority is left unchanged. -/
theorem update_priority_unchanged_without_new_priority (L4 : Type)
    (track : ReleaseTrack) (refName : String)
    (conv : String → Int) (parse : List String → List L4)
    (spg : String → Option String → String → String)
    (gid : String → Option String → String) (args : UpdateArgs)
    (h : args.new_priority = none) :
    ((updateRun L4 track refName conv parse spg gid args).1.priority
        = some (conv refName)) ∧
    ((updateRun L4 track refName conv parse spg gid args).2.1
        = conv refName) := by
  constructor <;> cases track <;> simp [updateRun, h]

open FirewallRules in
/-- C10 (witness): with the rule name `"10"` parsed to priority 10 and
`--new-priority` unspecified, the built rule carries priority 10 and the
update call addresses priority 10. -/
theorem update_priority_unchanged_without_new_priority_witness :
    emptyUpdateArgs.new_priority = none ∧
    (((updateRun Unit .ga "10" (fun _ => 10) (fun _ => [])
        (fun s _ _ => s) (fun s _ => s) emptyUpdateArgs).1.priority
        = some 10) ∧
     ((updateRun Unit .ga "10" (fun _ => 10) (fun _ => [])
        (fun s _ _ => s) (fun s _ => s) emptyUpdateArgs).2.1 = 10)) :=
  ⟨rfl,
    update_priority_unchanged_without_new_priority Unit .ga "10"
      (fun _ => 10) (fun _ => []) (fun s _ _ => s) (fun s _ => s)
      emptyUpdateArgs rfl⟩

open ClustersCreate in
/-- C3: for every pair of options declared mutually exclusive, an invocation
that sets both fails with `ConflictingOptionsError` whatever the rest of the
invocation looks like, and the failure is surfaced before any network call
(the adapter trace is empty). -/
theorem create_mutex_pair_conflict_before_network (OpRef Cluster : Type)
    (specified : String → Bool) (ad : Adapter OpRef Cluster)
    (asyncFlag : Bool) (t : Int) (p : String × String)
    (hp : p ∈ mutexPairs) (h1 : specified p.1 = true)
    (h2 : specified p.2 = true) :
    ∃ a b, buildThenSubmit specified ad asyncFlag t =
      (.error (.build (.conflictingOptions a b)), [], []) := by
  have hne : mutexPairs.find? (fun q => specified q.1 && specified q.2)
      ≠ none := by
    intro hfind
    exact absurd (List.find?_eq_none.mp hfind p hp) (by simp [h1, h2])
  obtain ⟨q, hq⟩ := Option.ne_none_iff_exists'.mp hne
  exact ⟨q.1, q.2, by simp [buildThenSubmit, validateMutex, hq]⟩

open ClustersCreate in
/-- C3 (witness): setting both `--subnetwork` and `--create-subnetwork`
makes the pipeline fail with `ConflictingOptionsError` and an empty adapter
trace. -/
theorem create_mutex_pair_conflict_before_network_witness :
    ("subnetwork", "create_subnetwork") ∈ mutexPairs ∧
    bothSubnetworkSpecified "subnetwork" = true ∧
    bothSubnetworkSpecified "create_subnetwork" = true ∧
    ∃ a b, buildThenSubmit bothSubnetworkSpecified failSubmitAdapter
      false 3600 = (.error (.build (.conflictingOptions a b)), [], []) :=
  ⟨by simp [mutexPairs], rfl, rfl,
    create_mutex_pair_conflict_before_network Unit Unit
      bothSubnetworkSpecified failSubmitAdapter false 3600
      ("subnetwork", "create_subnetwork") (by simp [mutexPairs]) rfl rfl⟩

open ClustersCreate in
/-- C5: the submit step of `Create.Run` performs exactly one
`adapter.CreateCluster` call in every run, and when the provider rejects
that call with an HTTP error the error is surfaced immediately as an
`HttpException` carrying the provider payload, with no further adapter call
and no local retry. -/
theorem create_submit_once_http_error_no_retry (OpRef Cluster : Type)
    (ad : Adapter OpRef Cluster) (asyncFlag : Bool) (t : Int) :
    ((runCreateLRO ad asyncFlag t).2.1.count .createCluster = 1) ∧
    (∀ p, ad.createCluster = .error (.httpError p) →
      runCreateLRO ad asyncFlag t =
        (.error (.httpException p), [.createCluster], [])) := by
  constructor
  · rcases hc : ad.createCluster with e | r
    · simp [runCreateLRO, hc]
    · cases asyncFlag
      · rcases hw : ad.waitForOperation r t with e | op
        · simp [runCreateLRO, hc, hw]
        · rcases hg : ad.getCluster with e | c
          · simp [runCreateLRO, hc, hw, hg]
          · rcases hpr : ad.persist c with e | u
            · cases e <;> simp [runCreateLRO, hc, hw, hg, hpr]
            · simp [runCreateLRO, hc, hw, hg, hpr]
      · rcases hg : ad.getCluster with e | c <;>
          simp [runCreateLRO, hc, hg]
  · intro p hc
    simp [runCreateLRO, hc, handleHttp]

open ClustersCreate in
/-- C5 (witness): a provider that rejects the submit with HTTP payload
`"quota exceeded"` yields an immediate `HttpException` with that payload and
a trace of exactly one `CreateCluster` call. -/
theorem create_submit_once_http_error_no_retry_witness :
    failSubmitAdapter.createCluster
        = .error (.httpError "quota exceeded") ∧
    ((runCreateLRO failSubmitAdapter false 3600).2.1.count
        .createCluster = 1) ∧
    runCreateLRO failSubmitAdapter false 3600 =
      (.error (.httpException "quota exceeded"), [.createCluster], []) :=
  ⟨rfl,
    (create_submit_once_http_error_no_retry Unit Unit failSubmitAdapter
      false 3600).1,
    (create_submit_once_http_error_no_retry Unit Unit failSubmitAdapter
      false 3600).2 "quota exceeded" rfl⟩

open ClustersCreate in
/-- C6: when the operation completes successfully but the subsequent cluster
fetch fails, `Create.Run` surfaces an `HttpException` (the resource-fetch
error), while an operation that reaches DONE with an error payload surfaces
the adapter's operation-failure error unchanged; the two surfaced errors
have distinct constructors, so a caller can distinguish the cases. -/
theorem create_fetch_failure_distinct_from_op_failure
    (OpRef Cluster : Type) (ad ad2 : Adapter OpRef Cluster) (t : Int)
    (r r2 : OpRef) (op : Operation) (p q : String)
    (hc : ad.createCluster = .ok r)
    (hw : ad.waitForOperation r t = .ok op)
    (hg : ad.getCluster = .error (.httpError p))
    (hc2 : ad2.createCluster = .ok r2)
    (hw2 : ad2.waitForOperation r2 t = .error (.opFailed q)) :
    (runCreateLRO ad false t).1 = .error (.httpException p) ∧
    (runCreateLRO ad2 false t).1 = .error (.reraised (.opFailed q)) ∧
    SurfacedExc.httpException p ≠ SurfacedExc.reraised (.opFailed q) := by
  refine ⟨?_, ?_, by simp⟩
  · simp [runCreateLRO, hc, hw, hg, handleHttp]
  · simp [runCreateLRO, hc2, hw2, handleHttp]

open ClustersCreate in
/-- C6 (witness): a run whose fetch fails with `"permission denied"` after a
successful operation surfaces `HttpException "permission denied"`, while a
run whose operation fails with payload `"conflict"` surfaces the distinct
operation-failure error. -/
theorem create_fetch_failure_distinct_from_op_failure_witness :
    fetchFailAdapter.createCluster = .ok () ∧
    fetchFailAdapter.waitForOperation () 3600 = .ok { detail := "" } ∧
    fetchFailAdapter.getCluster
        = .error (.httpError "permission denied") ∧
    opFailAdapter.createCluster = .ok () ∧
    opFailAdapter.waitForOperation () 3600 = .error (.opFailed "conflict") ∧
    ((runCreateLRO fetchFailAdapter false 3600).1
        = .error (.httpException "permission denied") ∧
     (runCreateLRO opFailAdapter false 3600).1
        = .error (.reraised (.opFailed "conflict")) ∧
     SurfacedExc.httpException "permission denied"
        ≠ SurfacedExc.reraised (.opFailed "conflict")) :=
  ⟨rfl, rfl, rfl, rfl, rfl,
    create_fetch_failure_distinct_from_op_failure Unit Unit
      fetchFailAdapter opFailAdapter 3600 () () { detail := "" }
      "permission denied" "conflict" rfl rfl rfl rfl rfl⟩

open ClustersCreate in
/-- C7: a terminal successful operation with a non-empty diagnostic detail
string has that detail surfaced among the logged warnings, never as an
error: the command still returns the created cluster. -/
theorem create_operation_detail_warning_not_error (OpRef Cluster : Type)
    (ad : Adapter OpRef Cluster) (t : Int) (r : OpRef) (op : Operation)
    (c : Cluster) (hc : ad.createCluster = .ok r)
    (hw : ad.waitForOperation r t = .ok op) (hg : ad.getCluster = .ok c)
    (hpr : ad.persist c = .ok ()) (hd : op.detail ≠ "") :
    (runCreateLRO ad false t).1 = .ok (.many [c]) ∧
    op.detail ∈ (runCreateLRO ad false t).2.2 := by
  constructor <;> simp [runCreateLRO, hc, hw, hg, hpr, hd]

open ClustersCreate in
/-- C7 (witness): an operation finishing with detail `"node quota reduced"`
still returns the created cluster and logs the detail as a warning. -/
theorem create_operation_detail_warning_not_error_witness :
    detailAdapter.createCluster = .ok () ∧
    detailAdapter.waitForOperation () 3600
        = .ok { detail := "node quota reduced" } ∧
    detailAdapter.getCluster = .ok () ∧
    detailAdapter.persist () = .ok () ∧
    "node quota reduced" ≠ "" ∧
    ((runCreateLRO detailAdapter false 3600).1 = .ok (.many [()]) ∧
     "node quota reduced" ∈ (runCreateLRO detailAdapter false 3600).2.2) :=
  ⟨rfl, rfl, rfl, rfl, by simp,
    create_operation_detail_warning_not_error Unit Unit detailAdapter
      3600 () { detail := "node quota reduced" } () rfl rfl rfl rfl
      (by simp)⟩

open FirewallRules in
/-- C4: for every release track and every option not registered in that
track: explicitly providing it makes the argument layer fail with
`UnsupportedOptionError`; providing only registered options never errors;
and the fields of unsupported options never appear in the rule built by
`Update.Run` (its track guards skip them). -/
theorem channel_gating_unsupported_options (track : ReleaseTrack)
    (args : UpdateArgs) (O : String)
    (hO : O ∉ updateFlagNames track) :
    (O ∈ specifiedFlags args →
      ∃ f, f ∉ updateFlagNames track ∧
        channelGate track (specifiedFlags args)
          = .error (.unsupportedOption f)) ∧
    ((∀ f ∈ specifiedFlags args, f ∈ updateFlagNames track) →
      channelGate track (specifiedFlags args) = .ok ()) ∧
    (∀ (L4 : Type) (refName : String) (conv : String → Int)
        (parse : List String → List L4)
        (spg : String → Option String → String → String)
        (gid : String → Option String → String),
      ruleFieldAbsent O
        ((updateRun L4 track refName conv parse spg gid args).1)) := by
  refine ⟨?_, ?_, ?_⟩
  · intro hmem
    have hne : (specifiedFlags args).find?
        (fun f => decide (f ∉ updateFlagNames track)) ≠ none := by
      intro hfind
      have := List.find?_eq_none.mp hfind O hmem
      simp [hO] at this
    obtain ⟨f, hf⟩ := Option.ne_none_iff_exists'.mp hne
    refine ⟨f, ?_, by simp only [channelGate]; rw [hf]⟩
    have := List.find?_some hf
    simpa using this
  · intro hall
    have hnone : (specifiedFlags args).find?
        (fun f => decide (f ∉ updateFlagNames track)) = none := by
      refine List.find?_eq_none.mpr ?_
      intro x hx
      simp [hall x hx]
    simp only [channelGate]
    rw [hnone]
  · intro L4 refName conv parse spg gid
    cases track with
    | ga =>
        refine ⟨?_, ?_, ?_, ?_, ?_, ?_, ?_⟩ <;> intro hEq <;>
          by_cases hm : shouldSetupMatch .ga args <;>
            simp [updateRun, hm]
    | beta =>
        refine ⟨?_, ?_, ?_, ?_, ?_, ?_, ?_⟩ <;> intro hEq
        · by_cases hm : shouldSetupMatch .beta args <;>
            simp [updateRun, hm]
        · by_cases hm : shouldSetupMatch .beta args <;>
            simp [updateRun, hm]
        · simp [updateRun]
        · subst hEq
          exact absurd (by decide) hO
        · subst hEq
          exact absurd (by decide) hO
        · subst hEq
          exact absurd (by decide) hO
        · subst hEq
          exact absurd (by decide) hO
    | alpha =>
        refine ⟨?_, ?_, ?_, ?_, ?_, ?_, ?_⟩ <;> intro hEq <;>
          subst hEq <;> exact absurd (by decide) hO

open FirewallRules in
/-- C4 (witness): in the GA track, the ALPHA-only option `--src-fqdns` is
unsupported; explicitly setting it is rejected with
`UnsupportedOptionError`. -/
theorem channel_gating_unsupported_options_witness :
    ("src_fqdns" ∉ updateFlagNames .ga) ∧
    ("src_fqdns" ∈ specifiedFlags fqdnArgs) ∧
    (∃ f, f ∉ updateFlagNames .ga ∧
      channelGate .ga (specifiedFlags fqdnArgs)
        = .error (.unsupportedOption f)) :=
  ⟨by simp [updateFlagNames],
   by simp [specifiedFlags, fqdnArgs, emptyUpdateArgs],
   (channel_gating_unsupported_options .ga fqdnArgs "src_fqdns"
      (by simp [updateFlagNames])).1
      (by simp [specifiedFlags, fqdnArgs, emptyUpdateArgs])⟩

open OrgPolicySim in
/-- C9 (code evaluated at the failing input): an invocation that passes the
initial validation by specifying only `--custom-constraints` does not
complete argument processing — with `--policies` unspecified the loop
`for policy in args.policies` iterates over `None` and raises `TypeError`,
and even with an (impossible to pass validation alone) empty policies list
the access `policies[0]` raises `IndexError`. -/
theorem simulate_custom_constraints_only_raises :
    (simulateRunHead (fun s => { name := s }) (fun s => { name := s })
        (fun s => s)
        { policies := none, custom_constraints := some ["constraint1.json"] }
      = .error .typeError) ∧
    (simulateRunHead (fun s => { name := s }) (fun s => { name := s })
        (fun s => s)
        { policies := some [],
          custom_constraints := some ["constraint1.json"] }
      = .error .indexError) :=
  ⟨rfl, rfl⟩

open ClustersCreate in
/-- C8: the request builder is a pure transformation: the options
`ParseCreateOptionsBase` builds from a given input are independent of any
previously accumulated log state — so calling it twice with identical
`(options, channel)` inputs yields structurally identical request
kwargs — and its only effect besides returning the request is appending
advisory messages to the log. -/
theorem parse_create_options_base_pure (h : CreateHelpers)
    (args0 : CreateArgs) (is_autopilot : Bool)
    (fd : String → Option PyVal) (location project_id : String)
    (log1 log2 : List String) :
    ((parseCreateOptionsBase h args0 is_autopilot fd location project_id
        log1).1
      = (parseCreateOptionsBase h args0 is_autopilot fd location project_id
        log2).1) ∧
    (∃ msgs,
      (parseCreateOptionsBase h args0 is_autopilot fd location project_id
        log1).2 = log1 ++ msgs) := by
  constructor
  · simp only [parseCreateOptionsBase]
    split
    · rfl
    · split
      · rfl
      · split
        · rfl
        · rfl
  · simp only [parseCreateOptionsBase]
    split
    · exact ⟨_, by simp only [List.append_assoc]; rfl⟩
    · split
      · exact ⟨_, by simp only [List.append_assoc]; rfl⟩
      · split
        · exact ⟨_, by simp only [List.append_assoc]; rfl⟩
        · exact ⟨_, by simp only [List.append_assoc]; rfl⟩
